import Mathlib

/-
Verification development for the telegram number checker (src/main.py).

The Python source is shallowly embedded: files become explicit string /
list contents, the remote messaging service becomes an oracle given as a
list of per-attempt events, exceptions become `Except`, and the infinite
`while True` loop becomes a fuel-indexed step function.  Machine-level
details that the program never relies on (unicode digits and underscore
separators in Python's `int`, unicode case folding in `str.lower`) are
modelled by their ASCII behaviour, which is what every reachable input
uses.
-/

set_option autoImplicit false

namespace TgChecker

/-! ### Python string primitives used by the source -/

/-- The whitespace characters recognised by Python's `str.strip()`. -/
def isPySpace (c : Char) : Bool :=
  c == ' ' || c == '\t' || c == '\n' || c == '\x0d' || c == '\x0b' || c == '\x0c'

/-- `str.strip()` on a list of characters: drop leading and trailing whitespace. -/
def pyStripL (l : List Char) : List Char :=
  ((l.dropWhile isPySpace).reverse.dropWhile isPySpace).reverse

/-- `str.strip()`. -/
def pyStrip (s : String) : String :=
  String.mk (pyStripL s.toList)

/-- `str.lower()` (ASCII case folding; the program only compares against "socks5"). -/
def pyLower (s : String) : String :=
  String.mk (s.toList.map Char.toLower)

/-- `str.split(',')` on character lists: Python keeps empty fields and returns
`[""]` on the empty string. -/
def pySplitCommaL : List Char → List (List Char)
  | [] => [[]]
  | c :: cs =>
    if c == ',' then [] :: pySplitCommaL cs
    else
      match pySplitCommaL cs with
      | [] => [[c]]
      | f :: r => (c :: f) :: r

/-- Membership test `pat` begins `s` (character lists). -/
def leadEq : List Char → List Char → Bool
  | [], _ => true
  | _ :: _, [] => false
  | p :: ps, c :: cs => p == c && leadEq ps cs

/-- Python's substring test `pat in s` on character lists. -/
def hasSub (pat : List Char) : List Char → Bool
  | [] => leadEq pat []
  | c :: cs => leadEq pat (c :: cs) || hasSub pat cs

/-- Python's substring test `pat in s`. -/
def strIn (pat s : String) : Bool :=
  hasSub pat.toList s.toList

/-! ### Decimal numerals: Python `int(...)` and `str(...)` on numbers -/

/-- Value of an ASCII digit. -/
def digVal (c : Char) : Nat := c.toNat - 48

/-- Value of a most-significant-first digit string. -/
def charsVal (l : List Char) : Nat :=
  l.foldl (fun a c => 10 * a + digVal c) 0

/-- ASCII digit for `n < 10`. -/
def digitChar (n : Nat) : Char := Char.ofNat (48 + n)

/-- Decimal digits of `n`, least significant first, with explicit fuel so the
kernel can evaluate it; `fuel > n` always suffices. -/
def toDigitsRevF : Nat → Nat → List Char
  | 0, _ => []
  | fuel + 1, n =>
    if n < 10 then [digitChar n]
    else digitChar (n % 10) :: toDigitsRevF fuel (n / 10)

/-- Decimal digits of `n`, least significant first. -/
def toDigitsRev (n : Nat) : List Char := toDigitsRevF (n + 1) n

/-- Python `str(n)` for a natural number `n`. -/
def natToDecimal (n : Nat) : String :=
  String.mk (toDigitsRev n).reverse

/-- `s` is a nonempty string of ASCII digits (a decimal numeral). -/
def isNumeralB (s : String) : Bool :=
  !s.toList.isEmpty && s.toList.all Char.isDigit

/-- Integer value of a digit run, or `none` if it is empty or not all digits. -/
def intOfDigits? (ds : List Char) : Option Int :=
  if !ds.isEmpty && ds.all Char.isDigit then some (charsVal ds) else none

/-- Python `int(s)` (base 10): strip whitespace, optional sign, digits;
`none` models the `ValueError` raise. -/
def pyInt? (s : String) : Option Int :=
  let t := pyStripL s.toList
  if t.head? = some '+' then intOfDigits? t.tail
  else if t.head? = some '-' then (intOfDigits? t.tail).map Int.neg
  else intOfDigits? t

/-- Python `str(v)` for an integer `v`. -/
def pyIntRepr (v : Int) : String :=
  if v < 0 then String.mk ('-' :: (toDigitsRev v.natAbs).reverse)
  else natToDecimal v.toNat

/-! ### Proxy settings (`read_proxy_settings`, main.py lines 21-38) -/

inductive ProxyKind where
  | SOCKS5
  | HTTP
  deriving DecidableEq

structure Proxy where
  kind : ProxyKind
  host : String
  port : Int
  rdns : Bool
  username : Option String
  password : Option String
  deriving DecidableEq

/-- The comma-separated fields of one line, after `line.strip()`. -/
def splitFields (line : String) : List String :=
  (pySplitCommaL (pyStripL line.toList)).map String.mk

/-- A line is kept when it has at least 3 comma-separated fields. -/
def wellFormedLineB (line : String) : Bool :=
  decide (3 ≤ (splitFields line).length)

/-- The descriptor built from one well-formed line (the tuple at main.py 29-36);
the port defaults to 0 when `int` would fail, which line-level theorems rule out. -/
def descOfLine (line : String) : Proxy :=
  let pd := splitFields line
  { kind := if pyLower (pd.getD 0 "") = "socks5" then ProxyKind.SOCKS5 else ProxyKind.HTTP
    host := pd.getD 1 ""
    port := (pyInt? (pd.getD 2 "")).getD 0
    rdns := true
    username := if 3 < pd.length then some (pd.getD 3 "") else none
    password := if 4 < pd.length then some (pd.getD 4 "") else none }

/-- `read_proxy_settings`: one descriptor per line with ≥ 3 fields, short lines
skipped; a non-integer port raises `ValueError` (modelled as `Except.error`). -/
def read_proxy_settings (lines : List String) : Except String (List Proxy) :=
  match lines with
  | [] => Except.ok []
  | line :: rest =>
    let pd := splitFields line
    if pd.length < 3 then read_proxy_settings rest
    else
      match pyInt? (pd.getD 2 "") with
      | none =>
        Except.error ("ValueError: invalid literal for int() with base 10: " ++ pd.getD 2 "")
      | some _ =>
        match read_proxy_settings rest with
        | Except.error e => Except.error e
        | Except.ok ps => Except.ok (descOfLine line :: ps)

/-! ### Cursor file (`read_last_checked_number` / `write_last_checked_number`,
main.py lines 40-46) -/

/-- `f.readline()` on character lists: everything up to and including the
first newline. -/
def readlineL : List Char → List Char
  | [] => []
  | c :: cs => if c == '\n' then [c] else c :: readlineL cs

/-- `read_last_checked_number`: first line of the file contents, stripped. -/
def read_last_checked_number (contents : String) : String :=
  String.mk (pyStripL (readlineL contents.toList))

/-- `write_last_checked_number`: the file contents become exactly the numeral. -/
def write_last_checked_number (number : String) : String :=
  number

/-- `increment_phone_number`: `str(int(phone_number) + 1)`; `none` models the
`ValueError` raise of `int` on a non-numeral. -/
def increment_phone_number (phone_number : String) : Option String :=
  (pyInt? phone_number).map fun v => pyIntRepr (v + 1)

/-! ### Account lookup (`get_names`, main.py lines 65-135) -/

/-- The user fields copied out of the delete-contacts response (main.py 93-111). -/
structure UserInfo where
  id : Nat
  username : Option String
  usernames : Option String
  first_name : Option String
  last_name : Option String
  fake : Bool
  verified : Bool
  premium : Bool
  mutual_contact : Bool
  bot : Bool
  bot_chat_history : Bool
  restricted : Bool
  restriction_reason : Option String
  user_was_online : String
  phone : Option String
  deriving DecidableEq

/-- The `result` dictionary built by `get_names`: either an error entry or the
user-field entries. -/
inductive NamesDict where
  | errorDict (msg : String)
  | userDict (u : UserInfo)
  deriving DecidableEq

/-- One attempt of the `try` body of `get_names`, as answered by the remote
service oracle: a normal import response with its match count (and, when the
count is 1, the user carried by the follow-up delete response), a rate-limit
signal with its mandated wait, a `TypeError`, or any other exception. -/
inductive AttemptEvent where
  | success (numMatches : Nat) (u : UserInfo)
  | floodWait (seconds : Nat)
  | typeError (m : String)
  | unexpected (m : String)
  deriving DecidableEq

/-- Exceptions that escape the embedded code. -/
inductive PyExn where
  /-- The `raise` at main.py 133: the error dict was recorded, then re-raised. -/
  | fromLookup (recorded : NamesDict) (m : String)
  /-- Model artifact: the event oracle was exhausted. -/
  | noResponse
  /-- `ValueError` from `int` inside `increment_phone_number`. -/
  | valueError (s : String)
  deriving DecidableEq

def notOnTelegramMsg : String :=
  "No response, the phone number is not on Telegram or has blocked contact adding."

def multiMatchMsg : String :=
  "This phone number matched multiple Telegram accounts, \n            which is unexpected. Please contact the developer."

def typeErrorMsg (phone m : String) : String :=
  "TypeError: " ++ m ++ ". --> The error might have occurred due to the inability to delete the phone_number='" ++ phone ++ "' from the contact list."

def unexpectedMsg (m : String) : String :=
  "Unexpected error: " ++ m ++ "."

/-- `get_names`: classify the next attempt events into a result dictionary.
Returns the dict, the total seconds slept in rate-limit waits, and the
unconsumed events; `Except.error` carries the escaping exception together
with the seconds slept before it. -/
def get_names (phone : String) :
    List AttemptEvent → Except (PyExn × Nat) (NamesDict × Nat × List AttemptEvent)
  | [] => Except.error (PyExn.noResponse, 0)
  | AttemptEvent.success k u :: rest =>
    if k == 0 then Except.ok (NamesDict.errorDict notOnTelegramMsg, 0, rest)
    else if k == 1 then Except.ok (NamesDict.userDict u, 0, rest)
    else Except.ok (NamesDict.errorDict multiMatchMsg, 0, rest)
  | AttemptEvent.floodWait w :: rest =>
    match get_names phone rest with
    | Except.ok (d, t, r) => Except.ok (d, w + t, r)
    | Except.error (e, t) => Except.error (e, w + t)
  | AttemptEvent.typeError m :: rest =>
    Except.ok (NamesDict.errorDict (typeErrorMsg phone m), 0, rest)
  | AttemptEvent.unexpected m :: _ =>
    Except.error (PyExn.fromLookup (NamesDict.errorDict (unexpectedMsg m)) m, 0)

/-- Add `w` seconds of sleep to a `get_names` outcome. -/
def addSleep (w : Nat) :
    Except (PyExn × Nat) (NamesDict × Nat × List AttemptEvent) →
    Except (PyExn × Nat) (NamesDict × Nat × List AttemptEvent)
  | Except.ok (d, t, r) => Except.ok (d, w + t, r)
  | Except.error (e, t) => Except.error (e, w + t)

/-! ### Result store (`save_to_excel`, main.py lines 188-194) -/

/-- `save_to_excel`: load the existing rows when the file exists, append the
new row, write everything back. `none` models an absent file. -/
def save_to_excel (store : Option (List NamesDict)) (data : NamesDict) : List NamesDict :=
  match store with
  | some rows => rows ++ [data]
  | none => [data]

/-! ### Validation loop (`validate_users`, main.py lines 137-156) -/

/-- Fixed inter-request delay (`delay = 5`, main.py 139). -/
def delayConst : Nat := 5

structure LoopState where
  /-- `phone_number` variable of the loop. -/
  phone : String
  /-- Contents of the cursor file. -/
  cursor : String
  /-- Rows of the result store; `none` = file absent. -/
  store : Option (List NamesDict)
  /-- The remote oracle: events not yet consumed. -/
  events : List AttemptEvent
  /-- The `result` dictionary, in insertion order. -/
  results : List (String × NamesDict)
  /-- Total seconds slept (rate-limit waits plus pacing delays). -/
  slept : Nat
  /-- Messages printed by the error branches of the loop. -/
  log : List String
  deriving DecidableEq

def initLoopState (phone cursor : String) (store : Option (List NamesDict))
    (events : List AttemptEvent) : LoopState :=
  ⟨phone, cursor, store, events, [], 0, []⟩

/-- `print(f"Error for {phone_number}: ...")` (main.py 144). -/
def errorLogLine (phone msg : String) : String :=
  "Error for " ++ phone ++ ": " ++ msg

/-- `print(f"Unexpected error for {phone_number}: ...")` (main.py 149). -/
def haltLogLine (phone msg : String) : String :=
  "Unexpected error for " ++ phone ++ ": " ++ msg

/-- Outcome of one iteration of the `while True` body. -/
inductive StepOut where
  | next (s : LoopState)
  | broke (s : LoopState)
  | raised (s : LoopState) (e : PyExn)

/-- One iteration of `validate_users`' `while True` body (main.py 141-155). -/
def loopStep (s : LoopState) : StepOut :=
  if s.results.any (fun pr => decide (pr.1 = s.phone)) then StepOut.next s
  else
    match get_names s.phone s.events with
    | Except.error (e, t) => StepOut.raised { s with slept := s.slept + t } e
    | Except.ok (d, t, rest) =>
      let s1 : LoopState :=
        { s with results := s.results ++ [(s.phone, d)], events := rest,
                 slept := s.slept + t }
      match d with
      | NamesDict.errorDict msg =>
        let s2 : LoopState := { s1 with log := s1.log ++ [errorLogLine s.phone msg] }
        if strIn "not on Telegram" msg then
          match increment_phone_number s.phone with
          | none => StepOut.raised s2 (PyExn.valueError s.phone)
          | some p' =>
            StepOut.next { s2 with phone := p', cursor := write_last_checked_number p',
                                   slept := s2.slept + delayConst }
        else
          StepOut.broke { s2 with log := s2.log ++ [haltLogLine s.phone msg] }
      | NamesDict.userDict u =>
        let s2 : LoopState :=
          { s1 with store := some (save_to_excel s1.store (NamesDict.userDict u)) }
        match increment_phone_number s.phone with
        | none => StepOut.raised s2 (PyExn.valueError s.phone)
        | some p' =>
          StepOut.next { s2 with phone := p', cursor := write_last_checked_number p',
                                 slept := s2.slept + delayConst }

/-- How a fuel-bounded run of the loop ended. -/
inductive LoopResult where
  | fuelOut
  | halted
  | exn (e : PyExn)
  deriving DecidableEq

/-- `validate_users`, fuel-indexed: run up to `fuel` iterations of the body. -/
def validate_users : Nat → LoopState → LoopState × LoopResult
  | 0, s => (s, LoopResult.fuelOut)
  | fuel + 1, s =>
    match loopStep s with
    | StepOut.next s' => validate_users fuel s'
    | StepOut.broke s' => (s', LoopResult.halted)
    | StepOut.raised s' e => (s', LoopResult.exn e)

/-! ### Login (`login`, main.py lines 158-186) -/

/-- Outcome of the whole connect-and-authorize sequence for one proxy, as
decided by the environment (network plus interactive sign-in). -/
inductive ConnectOutcome where
  | ok
  | fail (msg : String)
  deriving DecidableEq

def allProxiesFailedMsg : String := "All proxies failed"

/-- `login`: try each proxy in order; on failure disconnect and move on; return
the first proxy whose client connects and authorizes.  The first component
lists the proxies whose clients were torn down (disconnected), in order. -/
def login (attempt : Proxy → ConnectOutcome) :
    List Proxy → List Proxy × Except String Proxy
  | [] => ([], Except.error allProxiesFailedMsg)
  | p :: ps =>
    match attempt p with
    | ConnectOutcome.ok => ([], Except.ok p)
    | ConnectOutcome.fail _ =>
      match login attempt ps with
      | (torn, r) => (p :: torn, r)

/-! ### Sample values used by concrete instantiations -/

/-- A sample user record. -/
def sampleUser : UserInfo :=
  { id := 1, username := some "alice", usernames := none, first_name := some "Alice",
    last_name := none, fake := false, verified := false, premium := false,
    mutual_contact := false, bot := false, bot_chat_history := false,
    restricted := false, restriction_reason := none,
    user_was_online := "Last seen recently", phone := some "4912345679" }

/-- A sample proxy that the sample connection oracle rejects. -/
def sampleProxyBad : Proxy :=
  { kind := ProxyKind.HTTP, host := "bad.example.com", port := 8080, rdns := true,
    username := none, password := none }

/-- A sample proxy that the sample connection oracle accepts. -/
def sampleProxyGood : Proxy :=
  { kind := ProxyKind.SOCKS5, host := "good.example.com", port := 1080, rdns := true,
    username := none, password := none }

/-- A sample connection oracle: only `good.example.com` connects and authorizes. -/
def sampleAttempt (p : Proxy) : ConnectOutcome :=
  if p.host = "good.example.com" then ConnectOutcome.ok
  else ConnectOutcome.fail "connection refused"

/-! ### Helper lemmas: whitespace, digits and numerals -/

theorem dropWhileEqSelf {α : Type} (p : α → Bool) :
    ∀ l : List α, (∀ c ∈ l, p c = false) → l.dropWhile p = l
  | [], _ => rfl
  | a :: l, h => by simp [List.dropWhile_cons, h a (by simp)]

theorem pyStripL_eq_self {l : List Char} (h : ∀ c ∈ l, isPySpace c = false) :
    pyStripL l = l := by
  unfold pyStripL
  rw [dropWhileEqSelf _ l h,
    dropWhileEqSelf _ l.reverse (fun c hc => h c (List.mem_reverse.mp hc))]
  exact List.reverse_reverse l

theorem readlineL_eq_self {l : List Char} (h : ∀ c ∈ l, c ≠ '\n') : readlineL l = l := by
  induction l with
  | nil => rfl
  | cons a l ih =>
    have ha : (a == '\n') = false := by
      have := h a (by simp)
      simp [this]
    simp [readlineL, ha, ih (fun c hc => h c (by simp [hc]))]

theorem not_isPySpace_of_isDigit {c : Char} (h : c.isDigit = true) :
    isPySpace c = false := by
  cases hs : isPySpace c with
  | false => rfl
  | true =>
    exfalso
    simp only [isPySpace, Bool.or_eq_true, beq_iff_eq] at hs
    rcases hs with ((((hc | hc) | hc) | hc) | hc) | hc <;> subst hc <;>
      exact absurd h (by decide)

theorem ne_newline_of_isDigit {c : Char} (h : c.isDigit = true) : c ≠ '\n' :=
  fun hc => absurd h (by subst hc; decide)

theorem ne_plus_of_isDigit {c : Char} (h : c.isDigit = true) : c ≠ '+' :=
  fun hc => absurd h (by subst hc; decide)

theorem ne_minus_of_isDigit {c : Char} (h : c.isDigit = true) : c ≠ '-' :=
  fun hc => absurd h (by subst hc; decide)

theorem digitChar_isDigit {n : Nat} (h : n < 10) : (digitChar n).isDigit = true := by
  interval_cases n <;> decide

theorem digitChar_ne_zero_char {n : Nat} (h1 : 1 ≤ n) (h2 : n < 10) :
    digitChar n ≠ '0' := by
  interval_cases n <;> decide

theorem digVal_digitChar {n : Nat} (h : n < 10) : digVal (digitChar n) = n := by
  interval_cases n <;> decide

theorem getLast?_cons_of_ne_nil' {α : Type} (a : α) {l : List α} (h : l ≠ []) :
    (a :: l).getLast? = l.getLast? := by
  cases l with
  | nil => exact absurd rfl h
  | cons b l' => simp [List.getLast?_cons_cons]

theorem charsVal_append (l : List Char) (c : Char) :
    charsVal (l ++ [c]) = 10 * charsVal l + digVal c := by
  simp [charsVal, List.foldl_append]

theorem toDigitsRevF_spec :
    ∀ fuel n : Nat, n < fuel →
      toDigitsRevF fuel n ≠ [] ∧
      (∀ c ∈ toDigitsRevF fuel n, c.isDigit = true) ∧
      charsVal (toDigitsRevF fuel n).reverse = n ∧
      (1 ≤ n → ∀ c, (toDigitsRevF fuel n).getLast? = some c → c ≠ '0') := by
  intro fuel
  induction fuel with
  | zero => intro n hn; omega
  | succ fuel ih =>
    intro n hn
    by_cases h10 : n < 10
    · refine ⟨by simp [toDigitsRevF, h10], ?_, ?_, ?_⟩
      · intro c hc
        simp only [toDigitsRevF, if_pos h10, List.mem_singleton] at hc
        subst hc
        exact digitChar_isDigit h10
      · simp [toDigitsRevF, h10, charsVal, digVal_digitChar h10]
      · intro h1 c hc
        simp only [toDigitsRevF, if_pos h10, List.getLast?_singleton,
          Option.some.injEq] at hc
        subst hc
        exact digitChar_ne_zero_char h1 h10
    · have hdiv : n / 10 < fuel := by
        have := Nat.div_lt_self (show 0 < n by omega) (show 1 < 10 by omega)
        omega
      obtain ⟨ihne, ihdig, ihval, ihlast⟩ := ih (n / 10) hdiv
      have hmod : n % 10 < 10 := Nat.mod_lt _ (by omega)
      refine ⟨by simp [toDigitsRevF, h10], ?_, ?_, ?_⟩
      · intro c hc
        simp only [toDigitsRevF, if_neg h10, List.mem_cons] at hc
        rcases hc with hc | hc
        · subst hc
          exact digitChar_isDigit hmod
        · exact ihdig c hc
      · simp only [toDigitsRevF, if_neg h10, List.reverse_cons, charsVal_append,
          ihval, digVal_digitChar hmod]
        omega
      · intro _ c hc
        simp only [toDigitsRevF, if_neg h10] at hc
        rw [getLast?_cons_of_ne_nil' _ ihne] at hc
        exact ihlast (by omega : 1 ≤ n / 10) c hc

theorem toDigitsRev_ne_nil (n : Nat) : toDigitsRev n ≠ [] :=
  (toDigitsRevF_spec (n + 1) n (by omega)).1

theorem toDigitsRev_all_digit (n : Nat) : ∀ c ∈ toDigitsRev n, c.isDigit = true :=
  (toDigitsRevF_spec (n + 1) n (by omega)).2.1

theorem charsVal_toDigitsRev_reverse (n : Nat) :
    charsVal (toDigitsRev n).reverse = n :=
  (toDigitsRevF_spec (n + 1) n (by omega)).2.2.1

theorem natToDecimal_toList (n : Nat) :
    (natToDecimal n).toList = (toDigitsRev n).reverse := rfl

theorem charsVal_natToDecimal (n : Nat) : charsVal (natToDecimal n).toList = n := by
  rw [natToDecimal_toList]
  exact charsVal_toDigitsRev_reverse n

theorem natToDecimal_inj {m n : Nat} (h : natToDecimal m = natToDecimal n) : m = n := by
  have h2 := congrArg (fun s => charsVal s.toList) h
  simp only [charsVal_natToDecimal] at h2
  exact h2

theorem isNumeralB_natToDecimal (n : Nat) : isNumeralB (natToDecimal n) = true := by
  simp only [isNumeralB, natToDecimal_toList, Bool.and_eq_true, Bool.not_eq_true',
    List.all_eq_true]
  constructor
  · rw [List.isEmpty_eq_false_iff_exists_mem]
    obtain ⟨c, cs, hl⟩ := List.exists_cons_of_ne_nil (toDigitsRev_ne_nil n)
    exact ⟨c, by simp [hl]⟩
  · intro c hc
    exact toDigitsRev_all_digit n c (List.mem_reverse.mp hc)

theorem numeral_toList {s : String} (h : isNumeralB s = true) :
    s.toList ≠ [] ∧ ∀ c ∈ s.toList, c.isDigit = true := by
  simp only [isNumeralB, Bool.and_eq_true, Bool.not_eq_true', List.all_eq_true] at h
  refine ⟨fun hnil => ?_, fun c hc => h.2 c hc⟩
  rw [hnil] at h
  exact absurd h.1 (by decide)

theorem pyInt?_numeral {s : String} (h : isNumeralB s = true) :
    pyInt? s = some ((charsVal s.toList : Int)) := by
  obtain ⟨hne, hdig⟩ := numeral_toList h
  have hstrip : pyStripL s.toList = s.toList :=
    pyStripL_eq_self (fun c hc => not_isPySpace_of_isDigit (hdig c hc))
  obtain ⟨c, cs, hcons⟩ := List.exists_cons_of_ne_nil hne
  have hc : c.isDigit = true := hdig c (by rw [hcons]; exact List.mem_cons_self c cs)
  have hp : ¬ ((c :: cs).head? = some '+') := by
    intro hx
    rw [List.head?_cons, Option.some.injEq] at hx
    exact ne_plus_of_isDigit hc hx
  have hm : ¬ ((c :: cs).head? = some '-') := by
    intro hx
    rw [List.head?_cons, Option.some.injEq] at hx
    exact ne_minus_of_isDigit hc hx
  simp only [pyInt?]
  rw [hstrip, hcons, if_neg hp, if_neg hm]
  unfold intOfDigits?
  have hcond : (!(c :: cs).isEmpty && (c :: cs).all Char.isDigit) = true := by
    simp only [List.isEmpty_cons, Bool.not_false, Bool.true_and, List.all_eq_true]
    exact fun a ha => hdig a (by rw [hcons]; exact ha)
  rw [if_pos hcond]

theorem increment_numeral {s : String} (h : isNumeralB s = true) :
    increment_phone_number s = some (natToDecimal (charsVal s.toList + 1)) := by
  unfold increment_phone_number
  rw [pyInt?_numeral h]
  simp only [Option.map_some']
  unfold pyIntRepr
  rw [if_neg (by omega : ¬ ((charsVal s.toList : Int) + 1 < 0)),
    (by omega : ((charsVal s.toList : Int) + 1).toNat = charsVal s.toList + 1)]

theorem increment_natToDecimal (n : Nat) :
    increment_phone_number (natToDecimal n) = some (natToDecimal (n + 1)) := by
  rw [increment_numeral (isNumeralB_natToDecimal n), charsVal_natToDecimal]

theorem toDigitsRev_getLast?_ne_zero {n : Nat} (h : 1 ≤ n) :
    ∀ c, (toDigitsRev n).getLast? = some c → c ≠ '0' :=
  (toDigitsRevF_spec (n + 1) n (by omega)).2.2.2 h

theorem natToDecimal_head?_ne_zero {n : Nat} (h : 1 ≤ n) :
    (natToDecimal n).toList.head? ≠ some '0' := by
  rw [natToDecimal_toList, List.head?_reverse]
  intro hc
  exact toDigitsRev_getLast?_ne_zero h '0' hc rfl

/-! ### Helper lemmas: lookup and loop glue -/

theorem stringMk_toList (s : String) : String.mk s.toList = s := rfl

theorem addSleep_zero (x : Except (PyExn × Nat) (NamesDict × Nat × List AttemptEvent)) :
    addSleep 0 x = x := by
  cases x with
  | ok v =>
    obtain ⟨d, t, r⟩ := v
    simp [addSleep]
  | error e =>
    obtain ⟨e, t⟩ := e
    simp [addSleep]

theorem addSleep_addSleep (w₁ w₂ : Nat)
    (x : Except (PyExn × Nat) (NamesDict × Nat × List AttemptEvent)) :
    addSleep w₁ (addSleep w₂ x) = addSleep (w₁ + w₂) x := by
  cases x with
  | ok v =>
    obtain ⟨d, t, r⟩ := v
    simp [addSleep]
    omega
  | error e =>
    obtain ⟨e, t⟩ := e
    simp [addSleep]
    omega

theorem get_names_floodWait (phone : String) (w : Nat) (rest : List AttemptEvent) :
    get_names phone (AttemptEvent.floodWait w :: rest) =
      addSleep w (get_names phone rest) := by
  cases h : get_names phone rest with
  | ok v =>
    obtain ⟨d, t, r⟩ := v
    simp [get_names, h, addSleep]
  | error e =>
    obtain ⟨e, t⟩ := e
    simp [get_names, h, addSleep]

theorem strIn_notOnTelegram_true : strIn "not on Telegram" notOnTelegramMsg = true := rfl

theorem strIn_multiMatch_false : strIn "not on Telegram" multiMatchMsg = false := rfl

/-! ### Claim theorems -/

/-- Claim C3: a rate-limit signal carrying wait `w` makes `get_names` sleep
exactly `w` and retry the same lookup; retries are unbounded (any run of
rate-limit signals only adds their waits to the final outcome and is never
converted into an error classification), and with wait 3 followed by a
successful attempt the lookup returns the success dict having slept exactly
3 time units. -/
theorem C3_floodwait_retries (phone : String) (ws : List Nat)
    (evs : List AttemptEvent) (u : UserInfo) :
    get_names phone (ws.map AttemptEvent.floodWait ++ evs) =
      addSleep ws.sum (get_names phone evs) ∧
    get_names phone [AttemptEvent.floodWait 3, AttemptEvent.success 1 u] =
      Except.ok (NamesDict.userDict u, 3, []) := by
  constructor
  · induction ws with
    | nil => rw [List.map_nil, List.nil_append, List.sum_nil, addSleep_zero]
    | cons w ws ih =>
      rw [List.map_cons, List.cons_append, get_names_floodWait, ih,
        addSleep_addSleep, List.sum_cons]
  · rfl

/-- Claim C7: every write to the record store keeps all previously stored rows
and appends exactly one row: an existing store `S` becomes `S ++ [r]`, an
absent store is created holding `[r]`, and the row count always grows by
exactly one. -/
theorem C7_store_appends (S : List NamesDict) (st : Option (List NamesDict))
    (r : NamesDict) :
    save_to_excel (some S) r = S ++ [r] ∧
    save_to_excel none r = [r] ∧
    (save_to_excel st r).length = (st.getD []).length + 1 := by
  refine ⟨rfl, rfl, ?_⟩
  cases st <;> simp [save_to_excel]

/-- Claim C8: writing a decimal numeral to the cursor file and reading it back
returns the same numeral. -/
theorem C8_cursor_round_trip (c : String) (h : isNumeralB c = true) :
    read_last_checked_number (write_last_checked_number c) = c := by
  obtain ⟨hne, hdig⟩ := numeral_toList h
  unfold read_last_checked_number write_last_checked_number
  rw [readlineL_eq_self (fun ch hc => ne_newline_of_isDigit (hdig ch hc)),
    pyStripL_eq_self (fun ch hc => not_isPySpace_of_isDigit (hdig ch hc)),
    stringMk_toList]

theorem C8_cursor_round_trip_witness :
    isNumeralB "4912345" = true ∧
      read_last_checked_number (write_last_checked_number "4912345") = "4912345" :=
  ⟨by decide, C8_cursor_round_trip "4912345" (by decide)⟩

/-- Claim C9: `increment_phone_number` on a decimal numeral returns the numeral
whose value is one greater, with no leading zero. -/
theorem C9_increment_correct (s : String) (h : isNumeralB s = true) :
    ∃ r, increment_phone_number s = some r ∧ isNumeralB r = true ∧
      charsVal r.toList = charsVal s.toList + 1 ∧ r.toList.head? ≠ some '0' :=
  ⟨natToDecimal (charsVal s.toList + 1), increment_numeral h,
    isNumeralB_natToDecimal _, charsVal_natToDecimal _,
    natToDecimal_head?_ne_zero (by omega)⟩

theorem C9_increment_correct_witness :
    isNumeralB "4912345" = true ∧
    increment_phone_number "4912345" = some "4912346" ∧
    (∃ r, increment_phone_number "4912345" = some r ∧ isNumeralB r = true ∧
      charsVal r.toList = charsVal "4912345".toList + 1 ∧
      r.toList.head? ≠ some '0') :=
  ⟨by decide, by decide, C9_increment_correct "4912345" (by decide)⟩

/-- Claim C10: a proxy line with at least 3 comma-separated fields whose third
field is not a decimal integer makes `read_proxy_settings` raise a `ValueError`
instead of skipping the line and returning the remaining descriptors. -/
theorem C10_bad_port_raises :
    read_proxy_settings ["socks5,example.com,oops", "http,h,80"] =
      Except.error "ValueError: invalid literal for int() with base 10: oops" ∧
    3 ≤ (splitFields "socks5,example.com,oops").length :=
  ⟨rfl, by decide⟩

/-- Claim C5 counterexample: on the input whose single line has three fields
but a non-integer third field, `read_proxy_settings` raises instead of
returning one descriptor for that (3-field) line — so the claim's universal
quantification over all proxy-list inputs fails. -/
theorem C5_counterexample :
    wellFormedLineB "socks5,example.com,oops" = true ∧
    read_proxy_settings ["socks5,example.com,oops"] =
      Except.error "ValueError: invalid literal for int() with base 10: oops" :=
  ⟨by decide, rfl⟩

/-- Claim C5 (amended): for every proxy-list input in which each line with at
least 3 fields has an integer-parsable third field, `read_proxy_settings`
returns exactly one descriptor per such line in order, skipping the shorter
lines; every descriptor requests reverse DNS and is SOCKS5 exactly when the
line's first field lowercases to "socks5". -/
theorem C5_proxy_load (lines : List String)
    (hports : ∀ l ∈ lines, wellFormedLineB l = true →
      (pyInt? ((splitFields l).getD 2 "")).isSome = true) :
    read_proxy_settings lines =
      Except.ok ((lines.filter wellFormedLineB).map descOfLine) ∧
    ∀ l : String, (descOfLine l).rdns = true ∧
      ((descOfLine l).kind = ProxyKind.SOCKS5 ↔
        pyLower ((splitFields l).getD 0 "") = "socks5") := by
  constructor
  · induction lines with
    | nil => rfl
    | cons line rest ih =>
      have hrest := ih (fun l hl => hports l (List.mem_cons_of_mem _ hl))
      by_cases hwf : (splitFields line).length < 3
      · have hwfb : wellFormedLineB line = false := by
          simp only [wellFormedLineB, decide_eq_false_iff_not]
          omega
        simp only [read_proxy_settings, if_pos hwf, List.filter_cons, hwfb,
          Bool.false_eq_true, if_false]
        exact hrest
      · have hwfb : wellFormedLineB line = true := by
          simp only [wellFormedLineB, decide_eq_true_eq]
          omega
        have hsome := hports line (List.mem_cons_self _ _) hwfb
        obtain ⟨v, hv⟩ := Option.isSome_iff_exists.mp hsome
        simp only [read_proxy_settings, if_neg hwf, hv, hrest, List.filter_cons,
          hwfb, if_true, List.map_cons]
  · intro l
    refine ⟨rfl, ?_⟩
    unfold descOfLine
    by_cases hk : pyLower ((splitFields l).getD 0 "") = "socks5"
    · simp [hk]
    · simp [hk]

theorem C5_proxy_load_witness :
    (∀ l ∈ ["socks5,proxy.example.com,1080,u,p", "bad", "HTTP,h2,8080"],
      wellFormedLineB l = true →
        (pyInt? ((splitFields l).getD 2 "")).isSome = true) ∧
    read_proxy_settings ["socks5,proxy.example.com,1080,u,p", "bad", "HTTP,h2,8080"] =
      Except.ok ((["socks5,proxy.example.com,1080,u,p", "bad",
        "HTTP,h2,8080"].filter wellFormedLineB).map descOfLine) :=
  ⟨by decide, (C5_proxy_load _ (by decide)).1⟩

/-- Claim C6: `login` tries the proxies in order; when every proxy fails to
yield an authorized connection, each tried client is torn down and the result
is the all-proxies-failed error with no usable session; when position `i`
holds the first succeeding proxy, `login` returns that proxy's live client,
having torn down exactly the earlier proxies and never touching later ones. -/
theorem C6_login_failover (attempt : Proxy → ConnectOutcome) (ps : List Proxy) :
    ((∀ p ∈ ps, attempt p ≠ ConnectOutcome.ok) →
      login attempt ps = (ps, Except.error allProxiesFailedMsg)) ∧
    (∀ i : Nat, ∀ hi : i < ps.length,
      (∀ j : Nat, ∀ hj : j < i, attempt (ps.get ⟨j, by omega⟩) ≠ ConnectOutcome.ok) →
      attempt (ps.get ⟨i, hi⟩) = ConnectOutcome.ok →
      login attempt ps = (ps.take i, Except.ok (ps.get ⟨i, hi⟩))) := by
  constructor
  · induction ps with
    | nil => intro _; rfl
    | cons p ps ih =>
      intro hall
      cases hp : attempt p with
      | ok => exact absurd hp (hall p (List.mem_cons_self _ _))
      | fail m =>
        have := ih (fun q hq => hall q (List.mem_cons_of_mem _ hq))
        simp only [login, hp, this]
  · induction ps with
    | nil => intro i hi; simp at hi
    | cons p ps ih =>
      intro i hi hbefore hok
      cases i with
      | zero =>
        simp only [List.get] at hok
        simp only [login, hok, List.take_zero]
        rfl
      | succ i =>
        have hp : attempt p ≠ ConnectOutcome.ok := hbefore 0 (by omega)
        cases hpa : attempt p with
        | ok => exact absurd hpa hp
        | fail m =>
          have hrec := ih i (by simpa using hi)
            (fun j hj => hbefore (j + 1) (by omega)) hok
          simp only [login, hpa, hrec, List.take_succ_cons]
          rfl

theorem C6_login_failover_witness :
    login sampleAttempt [sampleProxyBad, sampleProxyGood] =
      ([sampleProxyBad, sampleProxyGood].take 1,
        Except.ok ([sampleProxyBad, sampleProxyGood].get ⟨1, by decide⟩)) ∧
    login sampleAttempt [sampleProxyBad, sampleProxyBad] =
      ([sampleProxyBad, sampleProxyBad], Except.error allProxiesFailedMsg) :=
  ⟨(C6_login_failover sampleAttempt [sampleProxyBad, sampleProxyGood]).2 1 (by decide)
      (fun j hj => by
        cases j with
        | zero =>
          intro h
          have h2 : sampleAttempt sampleProxyBad = ConnectOutcome.ok := h
          exact absurd h2 (by decide)
        | succ j => omega) (by decide),
    (C6_login_failover sampleAttempt [sampleProxyBad, sampleProxyBad]).1 (by decide)⟩

/-- Claim C4: an unexpected failure during lookup is recorded in the
per-number result dict (carried by the raised exception, since the code
updates `result` and then re-raises) and the same failure propagates out of
the loop, which therefore stops with the cursor file not rewritten, the
result store untouched, and no result row for that number. -/
theorem C4_unexpected_propagates (phone cursor : String)
    (store : Option (List NamesDict)) (m : String) (evs : List AttemptEvent)
    (fuel : Nat) :
    validate_users (fuel + 1)
        (initLoopState phone cursor store (AttemptEvent.unexpected m :: evs)) =
      (initLoopState phone cursor store (AttemptEvent.unexpected m :: evs),
        LoopResult.exn
          (PyExn.fromLookup (NamesDict.errorDict (unexpectedMsg m)) m)) := by
  simp [validate_users, loopStep, get_names, initLoopState]

/-- Claim C2 counterexample: a delete-step `TypeError` whose message happens to
contain the substring "not on Telegram" is not treated as a halt condition:
after one iteration the cursor file has been rewritten with the next number
and the loop has not halted, contradicting the claim for this
`TransientError` lookup. -/
theorem C2_counterexample :
    (validate_users 1 (initLoopState "100" "100" none
        [AttemptEvent.typeError "not on Telegram"])).1.cursor = "101" ∧
    (validate_users 1 (initLoopState "100" "100" none
        [AttemptEvent.typeError "not on Telegram"])).2 = LoopResult.fuelOut :=
  ⟨rfl, rfl⟩

/-- Claim C2 (amended): when the lookup classifies as `AmbiguousMatch` (more
than one matched account), or as `TransientError` (delete-step `TypeError`)
whose recorded message does not contain the substring "not on Telegram", the
loop logs the condition, leaves the cursor file and the result store
unchanged, writes no result row, and halts instead of proceeding. -/
theorem C2_ambiguous_or_transient_halts (phone cursor : String)
    (store : Option (List NamesDict)) (e : AttemptEvent) (evs : List AttemptEvent)
    (fuel : Nat) (msg : String)
    (hcase :
      (∃ k u, e = AttemptEvent.success k u ∧ 2 ≤ k ∧ msg = multiMatchMsg) ∨
      (∃ m, e = AttemptEvent.typeError m ∧ msg = typeErrorMsg phone m ∧
        strIn "not on Telegram" msg = false)) :
    validate_users (fuel + 1) (initLoopState phone cursor store (e :: evs)) =
      (⟨phone, cursor, store, evs, [(phone, NamesDict.errorDict msg)], 0,
          [errorLogLine phone msg, haltLogLine phone msg]⟩,
        LoopResult.halted) := by
  rcases hcase with ⟨k, u, he, hk, hmsg⟩ | ⟨m, he, hmsg, hsub⟩
  · subst he hmsg
    have hk0 : (k == 0) = false := by simp; omega
    have hk1 : (k == 1) = false := by simp; omega
    simp [validate_users, loopStep, get_names, initLoopState, hk0, hk1,
      strIn_multiMatch_false]
  · subst he hmsg
    simp [validate_users, loopStep, get_names, initLoopState, hsub]

theorem C2_ambiguous_or_transient_halts_witness :
    validate_users 1 (initLoopState "4912345" "4912345" none
        [AttemptEvent.success 2 sampleUser]) =
      (⟨"4912345", "4912345", none, [],
          [("4912345", NamesDict.errorDict multiMatchMsg)], 0,
          [errorLogLine "4912345" multiMatchMsg,
            haltLogLine "4912345" multiMatchMsg]⟩,
        LoopResult.halted) :=
  C2_ambiguous_or_transient_halts "4912345" "4912345" none _ [] 0 multiMatchMsg
    (Or.inl ⟨2, sampleUser, rfl, by omega, rfl⟩)

/-- Claim C1: starting the loop at cursor numeral `n` with lookups answering
NotRegistered, NotRegistered, Found, after processing the three numbers the
result store holds exactly the one row for `n + 2` and the persisted cursor
is the numeral `n + 3`. -/
theorem C1_two_absent_then_found (n : Nat) (c0 : String) (u1 u2 u3 : UserInfo) :
    ∃ s : LoopState,
      validate_users 3 (initLoopState (natToDecimal n) c0 none
          [AttemptEvent.success 0 u1, AttemptEvent.success 0 u2,
            AttemptEvent.success 1 u3]) = (s, LoopResult.fuelOut) ∧
      s.store = some [NamesDict.userDict u3] ∧
      s.cursor = write_last_checked_number (natToDecimal (n + 3)) := by
  have h1 : increment_phone_number (natToDecimal n) =
      some (natToDecimal (n + 1)) := increment_natToDecimal n
  have h2 : increment_phone_number (natToDecimal (n + 1)) =
      some (natToDecimal (n + 2)) := increment_natToDecimal (n + 1)
  have h3 : increment_phone_number (natToDecimal (n + 2)) =
      some (natToDecimal (n + 3)) := increment_natToDecimal (n + 2)
  have ne01 : (decide (natToDecimal n = natToDecimal (n + 1))) = false :=
    decide_eq_false (fun h => by have := natToDecimal_inj h; omega)
  have ne02 : (decide (natToDecimal n = natToDecimal (n + 2))) = false :=
    decide_eq_false (fun h => by have := natToDecimal_inj h; omega)
  have ne12 : (decide (natToDecimal (n + 1) = natToDecimal (n + 2))) = false :=
    decide_eq_false (fun h => by have := natToDecimal_inj h; omega)
  refine ⟨⟨natToDecimal (n + 3), natToDecimal (n + 3), some [NamesDict.userDict u3],
    [], [(natToDecimal n, NamesDict.errorDict notOnTelegramMsg),
      (natToDecimal (n + 1), NamesDict.errorDict notOnTelegramMsg),
      (natToDecimal (n + 2), NamesDict.userDict u3)], 15,
    [errorLogLine (natToDecimal n) notOnTelegramMsg,
      errorLogLine (natToDecimal (n + 1)) notOnTelegramMsg]⟩, ?_, rfl, rfl⟩
  simp [validate_users, loopStep, get_names, initLoopState, save_to_excel,
    strIn_notOnTelegram_true, h1, h2, h3, ne01, ne02, ne12, delayConst,
    write_last_checked_number]

end TgChecker
